import Mathlib

/-!
Verification of the YoScore ML proctoring service (`ml-service/`): a shallow
embedding of the audio signal analyzer (`audio_analyzer.py`), the face
geometry analyzer (`face_detector.py`) and the per-channel violation rule
engine (`app.py`), together with proofs of the specification's testable
properties.

Modelling conventions:
* Python floats are modelled as `ℚ`; Python ints as `ℕ`/`ℤ`.
* External numeric black boxes (librosa STFT/energy front end, the face
  detection model, `np.sqrt`) are passed in as explicit data or as an
  abstract function, so every embedded definition stays executable.
* A Python function that can raise is modelled as a function over an
  explicit outcome datatype describing where external calls fail.
-/

namespace YoScore

/-- One violation event as built by the rule layer in `app.py`. -/
structure Violation where
  vtype : String
  confidence : ℚ
  description : String
deriving DecidableEq

/-! ## Audio analyzer: voice activity detection (`audio_analyzer.py`, `_detect_speech`)

The energy/spectral front end (lines 151-179 of `audio_analyzer.py`) is
external numerics; its output is the combined activity signal, one rational
per 10 ms hop.  The debouncing loop (lines 188-214) is embedded exactly. -/

/-- Loop state of the debouncing loop in `_detect_speech`:
accumulated intervals, the `in_speech` flag, the `start` time of the current
run, and the (dead) `consecutive_frames` counter. -/
structure VadState where
  intervals : List (ℚ × ℚ)
  inSpeech : Bool
  start : ℚ
  consecutive : ℕ
deriving DecidableEq

def vadInit : VadState := ⟨[], false, 0, 0⟩

/-- One iteration of the `for i, is_speech in enumerate(speech_frames)` loop.
When the frame is inactive, Python first sets `consecutive_frames = 0`, so the
guard `in_speech and consecutive_frames == 0` reduces to `in_speech`. -/
def vadStep (hop sr : ℕ) (i : ℕ) (s : VadState) (isActive : Bool) : VadState :=
  if isActive then
    { s with consecutive := s.consecutive + 1
             start := if s.inSpeech then s.start else ((i * hop : ℕ) : ℚ) / (sr : ℚ)
             inSpeech := true }
  else if s.inSpeech then
    { intervals :=
        if (1 : ℚ)/5 ≤ ((i * hop : ℕ) : ℚ) / (sr : ℚ) - s.start then
          s.intervals ++ [(s.start, ((i * hop : ℕ) : ℚ) / (sr : ℚ))]
        else s.intervals
      inSpeech := false
      start := s.start
      consecutive := 0 }
  else
    { s with consecutive := 0 }

/-- The whole indexed loop. -/
def vadLoop (hop sr : ℕ) : ℕ → VadState → List Bool → VadState
  | _, s, [] => s
  | i, s, b :: bs => vadLoop hop sr (i + 1) (vadStep hop sr i s b) bs

/-- The tail handling after the loop (lines 208-212): a run still open at the
end of the signal is closed at time `len(y)/sr` and kept if at least 200 ms. -/
def vadFinish (sr ylen : ℕ) (s : VadState) : List (ℚ × ℚ) :=
  if s.inSpeech then
    if (1 : ℚ)/5 ≤ (ylen : ℚ) / (sr : ℚ) - s.start then
      s.intervals ++ [(s.start, (ylen : ℚ) / (sr : ℚ))]
    else s.intervals
  else s.intervals

/-- Debounce a boolean frame signal into speech intervals. -/
def detectSpeechFrames (frames : List Bool) (hop sr ylen : ℕ) : List (ℚ × ℚ) :=
  vadFinish sr ylen (vadLoop hop sr 0 vadInit frames)

/-- `_detect_speech` from the combined activity signal on: threshold the
combined signal (strict `>`), then debounce.  `hop_length = int(0.01*sr)` is
modelled as `sr / 100`. -/
def detectSpeech (combined : List ℚ) (sr ylen : ℕ) (threshold : ℚ) : List (ℚ × ℚ) :=
  detectSpeechFrames (combined.map (fun x => decide (threshold < x))) (sr / 100) sr ylen

/-- `len(speech_intervals) > 0`, as stored into `results['has_speech']`. -/
def hasSpeechB (combined : List ℚ) (sr ylen : ℕ) (threshold : ℚ) : Bool :=
  decide (0 < (detectSpeech combined sr ylen threshold).length)

/-! ## Audio analyzer: `_analyze_audio_sync` and the transcription path -/

/-- The fixed cheating-related watch-list (`AudioAnalyzer.__init__`). -/
def suspiciousKeywords : List String :=
  ["help", "answer", "solution", "cheat", "google",
   "search", "copy", "paste", "phone", "friend",
   "whatsapp", "telegram", "look up", "find"]

/-- Python's `needle in haystack` substring test. -/
def strContains (haystack needle : String) : Bool :=
  decide (needle.data <:+: haystack.data)

/-- The `results` dict built by `_analyze_audio_sync`. -/
structure AudioResults where
  has_speech : Bool := false
  speech_confidence : ℚ := 0
  voice_count : ℕ := 0
  noise_level : ℚ := 0
  suspicious_keywords : List String := []
  transcript : String := ""
  duration_ms : ℤ
  analysis_mode : String := "local_vad"
  error : Option String := none
deriving DecidableEq

/-- Errors raised by the speech-recognition layer: `sr.RequestError` (which
also covers the bounded-timeout case) and `sr.UnknownValueError`. -/
inductive RecErr
  | request (msg : String)
  | unknown
deriving DecidableEq

/-- Possible behaviours of the external `recognizer.recognize_google` call
inside `_recognize_google_with_timeout`. -/
inductive GoogleCall
  | returns (text : String)
  | raisesRequestErr (msg : String)
  | timesOut
  | raisesUnknown
deriving DecidableEq

/-- The default transcription timeout (seconds) in
`_recognize_google_with_timeout`. -/
def transcriptionTimeoutSeconds : ℚ := 4

/-- `_recognize_google_with_timeout`: without a recognizer it raises a
`RequestError`; a future timeout is re-raised as
`sr.RequestError('Speech API timeout')`; the call is made exactly once
(no resubmission). -/
def recognizeGoogleWithTimeout (recognizerPresent : Bool) (call : GoogleCall) :
    Except RecErr String :=
  if !recognizerPresent then .error (.request "Cloud transcription disabled")
  else
    match call with
    | .returns t => .ok t
    | .raisesRequestErr m => .error (.request m)
    | .timesOut => .error (.request "Speech API timeout")
    | .raisesUnknown => .error .unknown

/-- Outcome of loading/decoding one clip (pydub load, WAV export and
`librosa.load` together): either some step raised, or we obtain the mean RMS,
the combined activity signal, the sample rate and the sample count. -/
inductive LoadResult
  | failure (msg : String)
  | success (avgRms : ℚ) (combined : List ℚ) (sr ylen : ℕ)
deriving DecidableEq

/-- Behaviour of the cloud stage (lines 115-139): opening/recording the WAV
can raise (escaping to the outer handler), or the recognizer is called. -/
inductive CloudStage
  | openFail (msg : String)
  | call (g : GoogleCall)
deriving DecidableEq

/-- `_analyze_audio_sync`.  Mutations of the Python `results` dict are
modelled by successive record updates; an exception reaching the outer
handler keeps all updates made so far and adds the `error` field. -/
def analyzeAudioSync (enableCloud : Bool) (load : LoadResult) (cloud : CloudStage)
    (durationMs : ℤ) : AudioResults :=
  let base : AudioResults := { duration_ms := durationMs }
  match load with
  | .failure msg => { base with error := some msg }
  | .success avgRms combined sr ylen =>
    let r1 := { base with noise_level := min (avgRms * 10) 1 }
    let intervals := detectSpeech combined sr ylen (2/100)
    let r2 := { r1 with has_speech := decide (0 < intervals.length) }
    if r2.has_speech then
      let r3 := { r2 with speech_confidence := 68/100, voice_count := 1 }
      if enableCloud then
        match cloud with
        | .openFail msg => { r3 with error := some msg }
        | .call g =>
          match recognizeGoogleWithTimeout enableCloud g with
          | .ok t =>
            let tl := t.toLower
            let kws := suspiciousKeywords.filter (fun k => strContains tl k)
            let sentences := (tl.splitOn ".").filter (fun s => s.trim ≠ "")
            { r3 with analysis_mode := "cloud_transcription"
                      transcript := tl
                      speech_confidence := 85/100
                      suspicious_keywords := kws
                      voice_count := min sentences.length 3 }
          | .error .unknown =>
            { r3 with speech_confidence := 45/100, transcript := "[Unintelligible speech]" }
          | .error (.request m) =>
            { r3 with transcript := "[Speech API error: " ++ m ++ "]" }
      else r3
    else r2

/-! ## Audio-channel rule engine (`app.py`, `analyze_audio`, lines 195-229)

The key `voice_confidence` is never written by the analyzer, so
`results.get('voice_confidence', 0.7)` is the constant `0.7`.  Python's
one-decimal float formatting (`:.1f`) in display strings is abstracted to
plain rational printing. -/

def audioViolations (r : AudioResults) : List Violation :=
  (if r.has_speech then
     [⟨"speech_detected", r.speech_confidence,
       "Speech detected: \"" ++ r.transcript.take 50 ++ "\""⟩]
   else [])
  ++ (if 1 < r.voice_count then
       [⟨"multiple_voices", 7/10,
         "Detected " ++ toString r.voice_count ++ " distinct voices"⟩]
     else [])
  ++ (if 7/10 < r.noise_level then
       [⟨"high_background_noise", 65/100,
         "High background noise (" ++ toString (r.noise_level * 100) ++ "%)"⟩]
     else [])
  ++ (if r.suspicious_keywords ≠ [] then
       [⟨"suspicious_conversation", 8/10,
         "Detected suspicious keywords: " ++
           String.intercalate ", " (r.suspicious_keywords.take 3)⟩]
     else [])

/-! ## Face geometry analyzer (`face_detector.py`) -/

/-- A 3-D facial landmark with normalized coordinates. -/
structure Landmark where
  x : ℚ
  y : ℚ
  z : ℚ
deriving DecidableEq

/-- The landmark indices actually read by the analyzer, as named fields:
`nose` = 1, `leftOuter` = 33, `leftInner` = 133, `rightInner` = 362,
`rightOuter` = 263, `leftTop` = 159, `leftBottom` = 145, `rightTop` = 386,
`rightBottom` = 374, `chin` = 17, `mouthLeft` = 61. -/
structure FaceLandmarks where
  nose : Landmark
  leftOuter : Landmark
  leftInner : Landmark
  rightInner : Landmark
  rightOuter : Landmark
  leftTop : Landmark
  leftBottom : Landmark
  rightTop : Landmark
  rightBottom : Landmark
  chin : Landmark
  mouthLeft : Landmark
deriving DecidableEq

/-- The gaze dict produced by `_analyze_gaze_direction` / `_gaze_from_face_box`. -/
structure GazeInfo where
  looking_away : Bool
  direction : String
  horizontal_offset : ℚ
  confidence : ℚ
deriving DecidableEq

/-- Relative bounding box of one face (normalized coordinates). -/
structure FaceBox where
  x_center : ℚ
  y_center : ℚ
  width : ℚ
  height : ℚ
deriving DecidableEq

/-- The dict returned by `_to_dict`, i.e. the `FaceSignals` record the rule
engine consumes.  The decode-failure dict of `_analyze_frame_sync` omits most
keys; the rule engine reads them through `.get` with exactly these defaults,
so absent keys are modelled by the default values. -/
structure FaceSignals where
  face_count : ℕ := 0
  face_box : Option FaceBox := none
  gaze_direction : Option GazeInfo := none
  eyes_closed : Bool := false
  face_coverage : ℚ := 0
  confidence : ℚ := 0
  has_face : Bool := false
  detector_mode : String := ""
  error : Option String := none
deriving DecidableEq

/-- Intermediate `FaceAnalysis` dataclass. -/
structure FaceAnalysis where
  face_count : ℕ := 0
  gaze_direction : Option GazeInfo := none
  eyes_closed : Bool := false
  face_coverage : ℚ := 0
  confidence : ℚ := 0
  face_box : Option FaceBox := none
deriving DecidableEq

/-- `_to_dict`. -/
def toDict (mode : String) (a : FaceAnalysis) : FaceSignals :=
  { face_count := a.face_count
    face_box := a.face_box
    gaze_direction := a.gaze_direction
    eyes_closed := a.eyes_closed
    face_coverage := a.face_coverage
    confidence := a.confidence
    has_face := decide (0 < a.face_count)
    detector_mode := mode }

/-- The decode-failure result of `_analyze_frame_sync`
(`{"error": ..., "face_count": 0, "has_face": False}`). -/
def decodeFailureSignals : FaceSignals :=
  { error := some "Could not decode image" }

/-- Python's `max(xs, key=f)`: the first element attaining the maximum key. -/
def pyMaxBy {α β : Type} [LinearOrder β] (key : α → β) : α → List α → α
  | best, [] => best
  | best, a :: rest => pyMaxBy key (if key best < key a then a else best) rest

/-- Squared 3-D Euclidean distance between two landmarks (the argument of
`np.sqrt` in `_distance`). -/
def distSq (p q : Landmark) : ℚ :=
  (p.x - q.x) ^ 2 + (p.y - q.y) ^ 2 + (p.z - q.z) ^ 2

/-- `_calculate_ear`, parameterised by the external square-root routine `rt`
(`np.sqrt`): `vertical / horizontal` with the `horizontal == 0` guard
returning `0`. -/
def calculateEar (rt : ℚ → ℚ) (top bottom left right : Landmark) : ℚ :=
  let vertical := rt (distSq top bottom)
  let horizontal := rt (distSq left right)
  if horizontal = 0 then 0 else vertical / horizontal

/-- `_check_eyes_closed`: average the two eye aspect ratios and compare with
the 0.25 threshold. -/
def checkEyesClosed (rt : ℚ → ℚ) (lm : FaceLandmarks) : Bool :=
  let leftEar := calculateEar rt lm.leftTop lm.leftBottom lm.leftOuter lm.leftInner
  let rightEar := calculateEar rt lm.rightTop lm.rightBottom lm.rightInner lm.rightOuter
  decide ((leftEar + rightEar) / 2 < 1/4)

/-- `_analyze_gaze_direction` (landmark mode). -/
def analyzeGazeDirection (lm : FaceLandmarks) : GazeInfo :=
  let leftEyeCenterX := (lm.leftInner.x + lm.leftOuter.x) / 2
  let rightEyeCenterX := (lm.rightInner.x + lm.rightOuter.x) / 2
  let eyesCenterX := (leftEyeCenterX + rightEyeCenterX) / 2
  let horizontalOffset := |eyesCenterX - lm.nose.x|
  let lookingAway := decide (1/10 < horizontalOffset)
  let direction :=
    if lookingAway then (if eyesCenterX < lm.nose.x then "left" else "right")
    else "center"
  { looking_away := lookingAway
    direction := direction
    horizontal_offset := horizontalOffset
    confidence := min (9/10) (7/10 + horizontalOffset * 2) }

/-- `_gaze_from_face_box` (box mode). -/
def gazeFromFaceBox (xCenter : ℚ) : GazeInfo :=
  let horizontalOffset := xCenter - 1/2
  let absOffset := |horizontalOffset|
  let lookingAway := decide (12/100 < absOffset)
  let direction :=
    if lookingAway then (if horizontalOffset < 0 then "left" else "right")
    else "center"
  { looking_away := lookingAway
    direction := direction
    horizontal_offset := absOffset
    confidence := min (95/100) (7/10 + absOffset * (3/2)) }

/-- MediaPipe's `relative_bounding_box` (top-left corner plus extent). -/
structure MpBBox where
  xmin : ℚ
  ymin : ℚ
  width : ℚ
  height : ℚ
deriving DecidableEq

/-- `_calculate_face_coverage`: the 7 key landmarks are indices
1, 33, 133, 362, 263, 17, 61. -/
def calculateFaceCoverage (lm : FaceLandmarks) (bbox : MpBBox) : ℚ :=
  let keyLandmarks := [lm.nose, lm.leftOuter, lm.leftInner, lm.rightInner,
                       lm.rightOuter, lm.chin, lm.mouthLeft]
  let visibleCount := (keyLandmarks.filter (fun p =>
      decide (bbox.xmin ≤ p.x ∧ p.x ≤ bbox.xmin + bbox.width ∧
              bbox.ymin ≤ p.y ∧ p.y ≤ bbox.ymin + bbox.height))).length
  max 0 (min 1 (1 - (visibleCount : ℚ) / 7))

/-- One face window found by the OpenCV Haar cascade (`x, y, w, h` pixels). -/
structure CvFace where
  x : ℕ
  y : ℕ
  w : ℕ
  h : ℕ
deriving DecidableEq

/-- `_analyze_with_opencv`.  The cascade search itself is external; its
output list of windows, the frame dimensions, the availability of the eye
cascade and the number of eye windows found inside the primary face ROI are
taken as inputs. -/
def analyzeWithOpencv (faces : List CvFace) (frameW frameH : ℕ)
    (eyeCascadeOk : Bool) (eyesDetected : ℕ) : FaceSignals :=
  match faces with
  | [] => toDict "opencv" { face_count := 0 }
  | f :: rest =>
    let best := pyMaxBy (fun g => g.w * g.h) f rest
    let xCenter : ℚ := ((best.x : ℚ) + (best.w : ℚ) / 2) / (frameW : ℚ)
    let yCenter : ℚ := ((best.y : ℚ) + (best.h : ℚ) / 2) / (frameH : ℚ)
    let eyesClosed := if eyeCascadeOk then decide (eyesDetected = 0) else false
    toDict "opencv"
      { face_count := faces.length
        face_box := some ⟨xCenter, yCenter, (best.w : ℚ) / (frameW : ℚ),
                          (best.h : ℚ) / (frameH : ℚ)⟩
        confidence := 7/10
        gaze_direction := some (gazeFromFaceBox xCenter)
        eyes_closed := eyesClosed
        face_coverage := if eyesClosed then 2/10 else 0 }

/-- One MediaPipe detection: score of `detection.score[0]` and the relative
bounding box. -/
structure MpDetection where
  score : ℚ
  bbox : MpBBox
deriving DecidableEq

/-- `_analyze_with_mediapipe`.  The detection model and the face mesh are
external; their outputs (detections, and the first mesh landmark set when the
mesh found any face) are inputs, as is the square-root routine `rt`. -/
def analyzeWithMediapipe (rt : ℚ → ℚ) (detections : List MpDetection)
    (mesh : Option FaceLandmarks) : FaceSignals :=
  match detections with
  | [] => toDict "mediapipe" { face_count := 0 }
  | d :: ds =>
    let best := pyMaxBy (fun e => e.score) d ds
    let withBox : FaceAnalysis :=
      { face_count := (d :: ds).length
        confidence := best.score
        face_box := some ⟨best.bbox.xmin + best.bbox.width / 2,
                          best.bbox.ymin + best.bbox.height / 2,
                          best.bbox.width, best.bbox.height⟩ }
    match mesh with
    | none => toDict "mediapipe" withBox
    | some lm =>
      toDict "mediapipe"
        { withBox with
            gaze_direction := some (analyzeGazeDirection lm)
            eyes_closed := checkEyesClosed rt lm
            face_coverage := calculateFaceCoverage lm best.bbox }

/-! ## Face-channel rule engine (`app.py`, `analyze_face`, lines 95-137)

The keys `eye_confidence` and `coverage_confidence` are never written by the
analyzer, so their `.get` defaults `0.8` and `0.75` are constants. -/

def faceViolations (r : FaceSignals) : List Violation :=
  (if 1 < r.face_count then
     [⟨"multiple_faces", r.confidence,
       "Detected " ++ toString r.face_count ++ " faces"⟩]
   else if r.face_count = 0 then
     [⟨"no_face", 9/10, "No face detected in frame"⟩]
   else [])
  ++ (match r.gaze_direction with
      | some g =>
        if g.looking_away then
          [⟨"looking_away", g.confidence, "User looking " ++ g.direction⟩]
        else []
      | none => [])
  ++ (if r.eyes_closed then
       [⟨"eyes_closed", 8/10, "Eyes detected as closed"⟩]
     else [])
  ++ (if 3/10 < r.face_coverage then
       [⟨"face_covered", 3/4,
         "Face covered (" ++ toString (r.face_coverage * 100) ++ "%)"⟩]
     else [])

/-! ## Lemmas about the VAD debouncing loop -/

theorem vadLoop_append (hop sr i : ℕ) (s : VadState) (xs ys : List Bool) :
    vadLoop hop sr i s (xs ++ ys) =
      vadLoop hop sr (i + xs.length) (vadLoop hop sr i s xs) ys := by
  induction xs generalizing i s with
  | nil => simp [vadLoop]
  | cons b bs ih =>
      rw [List.cons_append, vadLoop, ih]
      have h : i + 1 + bs.length = i + (b :: bs).length := by
        simp only [List.length_cons]
        omega
      rw [h]
      rfl

/-- An inactive frame leaves an idle state (not in speech, zero counter)
unchanged. -/
theorem vadStep_inactive (hop sr i : ℕ) (s : VadState)
    (hs : s.inSpeech = false) (hc : s.consecutive = 0) :
    vadStep hop sr i s false = s := by
  cases s with
  | mk iv insp st cons =>
      simp only at hs hc
      subst hs; subst hc
      simp [vadStep]

/-- A whole inactive stretch leaves an idle state unchanged. -/
theorem vadLoop_inactive (hop sr : ℕ) (fs : List Bool) (hf : ∀ b ∈ fs, b = false)
    (i : ℕ) (s : VadState) (hs : s.inSpeech = false) (hc : s.consecutive = 0) :
    vadLoop hop sr i s fs = s := by
  induction fs generalizing i with
  | nil => rfl
  | cons b bs ih =>
      have hb : b = false := hf b (by simp)
      subst hb
      rw [vadLoop, vadStep_inactive hop sr i s hs hc]
      exact ih (fun x hx => hf x (by simp [hx])) (i + 1)

/-- Active frames processed while already in speech only bump the counter. -/
theorem vadLoop_active_in (hop sr : ℕ) (fs : List Bool) (hf : ∀ b ∈ fs, b = true)
    (i : ℕ) (s : VadState) (hs : s.inSpeech = true) :
    vadLoop hop sr i s fs = { s with consecutive := s.consecutive + fs.length } := by
  induction fs generalizing i s with
  | nil => cases s; simp [vadLoop]
  | cons b bs ih =>
      obtain ⟨iv, insp, st, cons⟩ := s
      simp only at hs
      subst hs
      have hb : b = true := hf b (by simp)
      subst hb
      have hstep : vadStep hop sr i ⟨iv, true, st, cons⟩ true =
          ⟨iv, true, st, cons + 1⟩ := by
        simp [vadStep]
      rw [vadLoop, hstep,
          ih (fun x hx => hf x (by simp [hx])) (i + 1) ⟨iv, true, st, cons + 1⟩ rfl]
      simp only [List.length_cons]
      congr 1
      omega

/-- A nonempty active run starting from an idle state opens a run at the
current frame time. -/
theorem vadLoop_active_start (hop sr : ℕ) (fs : List Bool) (hf : ∀ b ∈ fs, b = true)
    (i : ℕ) (s : VadState) (hs : s.inSpeech = false) (hne : fs ≠ []) :
    vadLoop hop sr i s fs =
      { intervals := s.intervals, inSpeech := true,
        start := ((i * hop : ℕ) : ℚ) / (sr : ℚ),
        consecutive := s.consecutive + fs.length } := by
  cases fs with
  | nil => simp at hne
  | cons b bs =>
      obtain ⟨iv, insp, st, cons⟩ := s
      simp only at hs
      subst hs
      have hb : b = true := hf b (by simp)
      subst hb
      have hstep : vadStep hop sr i ⟨iv, false, st, cons⟩ true =
          ⟨iv, true, ((i * hop : ℕ) : ℚ) / (sr : ℚ), cons + 1⟩ := by
        simp [vadStep]
      rw [vadLoop, hstep,
          vadLoop_active_in hop sr bs (fun x hx => hf x (by simp [hx])) (i + 1) _ rfl]
      simp only [List.length_cons]
      congr 1
      omega

/-- Thresholding a stretch of values at most `th` gives only `false` frames. -/
theorem map_threshold_false (l : List ℚ) (th : ℚ) (h : ∀ x ∈ l, x ≤ th) :
    ∀ b ∈ l.map (fun x => decide (th < x)), b = false := by
  intro b hb
  rcases List.mem_map.mp hb with ⟨x, hx, rfl⟩
  exact decide_eq_false (not_lt.mpr (h x hx))

/-- Thresholding a stretch of values above `th` gives only `true` frames. -/
theorem map_threshold_true (l : List ℚ) (th : ℚ) (h : ∀ x ∈ l, th < x) :
    ∀ b ∈ l.map (fun x => decide (th < x)), b = true := by
  intro b hb
  rcases List.mem_map.mp hb with ⟨x, hx, rfl⟩
  exact decide_eq_true (h x hx)

/-- A clip whose combined signal never exceeds the threshold yields no
speech intervals. -/
theorem detectSpeech_all_inactive (l : List ℚ) (sr ylen : ℕ) (th : ℚ)
    (h : ∀ x ∈ l, x ≤ th) :
    detectSpeech l sr ylen th = [] := by
  unfold detectSpeech detectSpeechFrames
  rw [vadLoop_inactive (sr / 100) sr _ (map_threshold_false l th h) 0 vadInit rfl rfl]
  rfl

/-- The exact behaviour of `_detect_speech` on a signal that exceeds the
threshold on one isolated run surrounded by silence: the run survives the
debouncing exactly when its duration (`run length × hop / sr`) reaches
200 ms. -/
theorem detect_isolated_run (pre mid post : List ℚ) (sr ylen : ℕ) (th : ℚ)
    (hpre : ∀ x ∈ pre, x ≤ th) (hmid : ∀ x ∈ mid, th < x) (hpost : ∀ x ∈ post, x ≤ th)
    (hpost1 : post ≠ []) (hmid1 : mid ≠ []) :
    detectSpeech (pre ++ mid ++ post) sr ylen th =
      if (1 : ℚ)/5 ≤ ((mid.length * (sr / 100) : ℕ) : ℚ) / (sr : ℚ) then
        [(((pre.length * (sr / 100) : ℕ) : ℚ) / (sr : ℚ),
          (((pre.length + mid.length) * (sr / 100) : ℕ) : ℚ) / (sr : ℚ))]
      else [] := by
  obtain ⟨q, qs, rfl⟩ := List.exists_cons_of_ne_nil hpost1
  unfold detectSpeech detectSpeechFrames
  rw [List.append_assoc, List.map_append, List.map_append,
      vadLoop_append, vadLoop_append]
  rw [vadLoop_inactive (sr / 100) sr _ (map_threshold_false pre th hpre) 0 vadInit rfl rfl]
  rw [vadLoop_active_start (sr / 100) sr _ (map_threshold_true mid th hmid) _ vadInit rfl
        (by simpa using hmid1)]
  simp only [List.map_cons, vadLoop, List.length_map, vadInit, Nat.zero_add]
  have hq : decide (th < q) = false := decide_eq_false (not_lt.mpr (hpost q (by simp)))
  rw [hq]
  have hclose : vadStep (sr / 100) sr (pre.length + mid.length)
      { intervals := ([] : List (ℚ × ℚ)), inSpeech := true,
        start := ((pre.length * (sr / 100) : ℕ) : ℚ) / (sr : ℚ),
        consecutive := mid.length } false =
      { intervals :=
          if (1 : ℚ)/5 ≤ (((pre.length + mid.length) * (sr / 100) : ℕ) : ℚ) / (sr : ℚ)
              - ((pre.length * (sr / 100) : ℕ) : ℚ) / (sr : ℚ) then
            [(((pre.length * (sr / 100) : ℕ) : ℚ) / (sr : ℚ),
              (((pre.length + mid.length) * (sr / 100) : ℕ) : ℚ) / (sr : ℚ))]
          else []
        inSpeech := false
        start := ((pre.length * (sr / 100) : ℕ) : ℚ) / (sr : ℚ)
        consecutive := 0 } := by
    simp [vadStep]
  rw [hclose]
  have hdur : (((pre.length + mid.length) * (sr / 100) : ℕ) : ℚ) / (sr : ℚ)
      - ((pre.length * (sr / 100) : ℕ) : ℚ) / (sr : ℚ)
      = ((mid.length * (sr / 100) : ℕ) : ℚ) / (sr : ℚ) := by
    rw [div_sub_div_same]
    congr 1
    push_cast
    ring
  rw [hdur]
  by_cases hc : (1 : ℚ)/5 ≤ ((mid.length * (sr / 100) : ℕ) : ℚ) / (sr : ℚ)
  · rw [if_pos hc]
    rw [vadLoop_inactive (sr / 100) sr _ (map_threshold_false qs th
          (fun x hx => hpost x (by simp [hx]))) _ _ rfl rfl]
    simp [vadFinish]
  · rw [if_neg hc]
    rw [vadLoop_inactive (sr / 100) sr _ (map_threshold_false qs th
          (fun x hx => hpost x (by simp [hx]))) _ _ rfl rfl]
    rfl

/-- Evaluation helper: a clip whose combined signal is 20 all-active frames
(200 ms at the 10 ms hop of a 100 Hz sample rate) produces one interval. -/
def demoSignal : List ℚ := List.replicate 20 1

theorem demo_detect : detectSpeech demoSignal 100 20 (2/100) = [(0, 1/5)] := by
  have hdec : decide ((2 : ℚ)/100 < 1) = true := decide_eq_true (by norm_num)
  have hmap : demoSignal.map (fun x => decide ((2 : ℚ)/100 < x)) = List.replicate 20 true := by
    rw [demoSignal, List.map_replicate, hdec]
  unfold detectSpeech detectSpeechFrames
  rw [hmap,
      vadLoop_active_start _ _ _ (fun b hb => List.eq_of_mem_replicate hb) 0 vadInit rfl
        (by simp)]
  simp only [vadFinish, vadInit, List.length_replicate]
  norm_num

theorem demo_hasSpeech : 0 < (detectSpeech demoSignal 100 20 (2/100)).length := by
  rw [demo_detect]
  simp

/-! ## C1: VAD debouncing -/

/-- C1: for every audio input whose combined activity signal exceeds the
threshold only on one isolated run surrounded by silence, `_detect_speech`
returns no interval and `has_speech` is false when the run is shorter than
200 ms, while a run of at least 200 ms leaves at least one surviving
interval and `has_speech` true. -/
theorem vad_debouncing (pre mid post : List ℚ) (sr ylen : ℕ) (th : ℚ)
    (hpre : ∀ x ∈ pre, x ≤ th) (hmid : ∀ x ∈ mid, th < x) (hpost : ∀ x ∈ post, x ≤ th)
    (hpost1 : post ≠ []) :
    (((mid.length * (sr / 100) : ℕ) : ℚ) / (sr : ℚ) < 1/5 →
       detectSpeech (pre ++ mid ++ post) sr ylen th = [] ∧
       hasSpeechB (pre ++ mid ++ post) sr ylen th = false) ∧
    ((1 : ℚ)/5 ≤ ((mid.length * (sr / 100) : ℕ) : ℚ) / (sr : ℚ) →
       detectSpeech (pre ++ mid ++ post) sr ylen th ≠ [] ∧
       hasSpeechB (pre ++ mid ++ post) sr ylen th = true) := by
  by_cases hmid1 : mid = []
  · subst hmid1
    have hall : ∀ x ∈ pre ++ [] ++ post, x ≤ th := by
      intro x hx
      simp only [List.append_nil, List.mem_append] at hx
      rcases hx with h | h
      exacts [hpre x h, hpost x h]
    have hdet := detectSpeech_all_inactive _ sr ylen th hall
    refine ⟨fun _ => ⟨hdet, ?_⟩, fun hge => absurd hge ?_⟩
    · unfold hasSpeechB
      rw [hdet]
      rfl
    · simp only [List.length_nil, Nat.zero_mul, Nat.cast_zero, zero_div]
      norm_num
  · have hdet := detect_isolated_run pre mid post sr ylen th hpre hmid hpost hpost1 hmid1
    constructor
    · intro hlt
      have hneg := not_le.mpr hlt
      refine ⟨by rw [hdet, if_neg hneg], ?_⟩
      unfold hasSpeechB
      rw [hdet, if_neg hneg]
      rfl
    · intro hge
      refine ⟨by rw [hdet, if_pos hge]; simp, ?_⟩
      unfold hasSpeechB
      rw [hdet, if_pos hge]
      rfl

theorem vad_debouncing_witness :
    (detectSpeech (List.replicate 3 (0 : ℚ) ++ List.replicate 10 (1 : ℚ) ++
        List.replicate 3 (0 : ℚ)) 100 100 (2/100) = [] ∧
     hasSpeechB (List.replicate 3 (0 : ℚ) ++ List.replicate 10 (1 : ℚ) ++
        List.replicate 3 (0 : ℚ)) 100 100 (2/100) = false) ∧
    (detectSpeech (List.replicate 3 (0 : ℚ) ++ List.replicate 25 (1 : ℚ) ++
        List.replicate 3 (0 : ℚ)) 100 100 (2/100) ≠ [] ∧
     hasSpeechB (List.replicate 3 (0 : ℚ) ++ List.replicate 25 (1 : ℚ) ++
        List.replicate 3 (0 : ℚ)) 100 100 (2/100) = true) := by
  constructor
  · exact (vad_debouncing (List.replicate 3 0) (List.replicate 10 1) (List.replicate 3 0)
      100 100 (2/100)
      (fun x hx => by rw [List.eq_of_mem_replicate hx]; norm_num)
      (fun x hx => by rw [List.eq_of_mem_replicate hx]; norm_num)
      (fun x hx => by rw [List.eq_of_mem_replicate hx]; norm_num)
      (by simp)).1 (by norm_num)
  · exact (vad_debouncing (List.replicate 3 0) (List.replicate 25 1) (List.replicate 3 0)
      100 100 (2/100)
      (fun x hx => by rw [List.eq_of_mem_replicate hx]; norm_num)
      (fun x hx => by rw [List.eq_of_mem_replicate hx]; norm_num)
      (fun x hx => by rw [List.eq_of_mem_replicate hx]; norm_num)
      (by simp)).2 (by norm_num)

/-! ## Helper lemmas for the audio rule engine -/

theorem mem_audioViolations_vtype (r : AudioResults) (t : String) :
    t ∈ (audioViolations r).map Violation.vtype ↔
      (t = "speech_detected" ∧ r.has_speech = true) ∨
      (t = "multiple_voices" ∧ 1 < r.voice_count) ∨
      (t = "high_background_noise" ∧ 7/10 < r.noise_level) ∨
      (t = "suspicious_conversation" ∧ r.suspicious_keywords ≠ []) := by
  unfold audioViolations
  by_cases h1 : r.has_speech <;> by_cases h2 : 1 < r.voice_count <;>
    by_cases h3 : (7 : ℚ)/10 < r.noise_level <;>
    by_cases h4 : r.suspicious_keywords = [] <;>
    simp [h1, h2, h3, h4]

/-- Every watch-list entry is a nonempty string. -/
theorem suspiciousKeywords_data_ne_nil : ∀ k ∈ suspiciousKeywords, k.data ≠ [] := by
  decide

/-- A nonempty keyword filtered from an empty transcript is impossible. -/
theorem filter_keywords_ne_nil_transcript (tl : String)
    (h : suspiciousKeywords.filter (fun k => strContains tl k) ≠ []) : tl ≠ "" := by
  intro hempty
  subst hempty
  obtain ⟨k, hk⟩ := List.exists_mem_of_ne_nil _ h
  have hmem := (List.mem_filter.mp hk).1
  have hck := (List.mem_filter.mp hk).2
  have hinf : k.data <:+: ("" : String).data := of_decide_eq_true hck
  exact suspiciousKeywords_data_ne_nil k hmem (List.eq_nil_of_infix_nil hinf)

/-! ## C2: error reporting of the audio analyzer -/

/-- C2 counterexample: a failure occurring after the local pass (here the
`sr.AudioFile`/`record` step raising once speech was already detected) keeps
the already-computed detection values, so the result carries an `error` field
with `has_speech = true`, not every detection field at its default. -/
theorem audio_failure_partial_fields_cex :
    (analyzeAudioSync true (.success 0 demoSignal 100 20)
        (.openFail "record failed") 5000).error = some "record failed" ∧
    (analyzeAudioSync true (.success 0 demoSignal 100 20)
        (.openFail "record failed") 5000).has_speech = true := by
  have h := demo_detect
  constructor <;> simp [analyzeAudioSync, h]

/-- C2 (amended): `_analyze_audio_sync` never raises; a failure while
loading/decoding the clip (before any detection is computed) is reported as
a record carrying the `error` field with every detection field at its
default/false value; a failure after partial analysis keeps the detection
values already computed alongside the `error` field. -/
theorem audio_failure_reporting (enableCloud : Bool) (cloud : CloudStage)
    (durationMs : ℤ) (msg : String) :
    analyzeAudioSync enableCloud (.failure msg) cloud durationMs =
      { has_speech := false, speech_confidence := 0, voice_count := 0,
        noise_level := 0, suspicious_keywords := [], transcript := "",
        duration_ms := durationMs, analysis_mode := "local_vad",
        error := some msg } := rfl

/-! ## C4: transcription timeout / backend error fallback -/

/-- C4: when the bounded cloud transcription attempt fails with an
`sr.RequestError` (in particular the 4 s timeout, surfaced as
`RequestError('Speech API timeout')`), the clip is not resubmitted and the
result keeps `analysis_mode = local_vad`, `speech_confidence = 0.68` and
`voice_count = 1` from the local pass, carries the error marker in the
transcript, leaves `suspicious_keywords` empty, and hence no
`suspicious_conversation` violation is emitted. -/
theorem transcription_backend_error_fallback (avgRms : ℚ) (combined : List ℚ)
    (sr ylen : ℕ) (durationMs : ℤ) (g : GoogleCall) (m : String)
    (hspeech : 0 < (detectSpeech combined sr ylen (2/100)).length)
    (hcall : recognizeGoogleWithTimeout true g = .error (.request m)) :
    analyzeAudioSync true (.success avgRms combined sr ylen) (.call g) durationMs =
      { has_speech := true, speech_confidence := 68/100, voice_count := 1,
        noise_level := min (avgRms * 10) 1, suspicious_keywords := [],
        transcript := "[Speech API error: " ++ m ++ "]",
        duration_ms := durationMs, analysis_mode := "local_vad", error := none } ∧
    "suspicious_conversation" ∉
      (audioViolations (analyzeAudioSync true (.success avgRms combined sr ylen)
        (.call g) durationMs)).map Violation.vtype := by
  have heq : analyzeAudioSync true (.success avgRms combined sr ylen) (.call g) durationMs =
      { has_speech := true, speech_confidence := 68/100, voice_count := 1,
        noise_level := min (avgRms * 10) 1, suspicious_keywords := [],
        transcript := "[Speech API error: " ++ m ++ "]",
        duration_ms := durationMs, analysis_mode := "local_vad", error := none } := by
    simp [analyzeAudioSync, decide_eq_true hspeech, hcall]
  refine ⟨heq, ?_⟩
  rw [heq, mem_audioViolations_vtype]
  rintro (⟨h, _⟩ | ⟨h, _⟩ | ⟨h, _⟩ | ⟨_, h⟩)
  · exact absurd h (by decide)
  · exact absurd h (by decide)
  · exact absurd h (by decide)
  · exact h rfl

theorem transcription_backend_error_fallback_witness :
    analyzeAudioSync true (.success 0 demoSignal 100 20) (.call .timesOut) 1234 =
      { has_speech := true, speech_confidence := 68/100, voice_count := 1,
        noise_level := min (0 * 10) 1, suspicious_keywords := [],
        transcript := "[Speech API error: " ++ "Speech API timeout" ++ "]",
        duration_ms := 1234, analysis_mode := "local_vad", error := none } ∧
    "suspicious_conversation" ∉
      (audioViolations (analyzeAudioSync true (.success 0 demoSignal 100 20)
        (.call .timesOut) 1234)).map Violation.vtype :=
  transcription_backend_error_fallback 0 demoSignal 100 20 1234 GoogleCall.timesOut
    "Speech API timeout" demo_hasSpeech rfl

/-! ## C7: audio signals invariants -/

/-- C7: for every result of the audio analyzer, `suspicious_keywords` is a
subset of the fixed watch-list, it is non-empty only if the transcript is
non-empty, and `voice_count > 0` only if `has_speech` is true. -/
theorem audio_signal_invariants (enableCloud : Bool) (load : LoadResult)
    (cloud : CloudStage) (durationMs : ℤ) :
    (∀ k ∈ (analyzeAudioSync enableCloud load cloud durationMs).suspicious_keywords,
        k ∈ suspiciousKeywords) ∧
    ((analyzeAudioSync enableCloud load cloud durationMs).suspicious_keywords ≠ [] →
        (analyzeAudioSync enableCloud load cloud durationMs).transcript ≠ "") ∧
    (0 < (analyzeAudioSync enableCloud load cloud durationMs).voice_count →
        (analyzeAudioSync enableCloud load cloud durationMs).has_speech = true) := by
  cases load with
  | failure msg => simp [analyzeAudioSync]
  | success avgRms combined sr ylen =>
      by_cases hs : 0 < (detectSpeech combined sr ylen (2/100)).length
      · have hs' := decide_eq_true hs
        cases enableCloud with
        | false => simp [analyzeAudioSync, hs']
        | true =>
            cases cloud with
            | openFail msg => simp [analyzeAudioSync, hs']
            | call g =>
                cases g with
                | returns t =>
                    refine ⟨?_, ?_, ?_⟩
                    · intro k hk
                      have : k ∈ suspiciousKeywords.filter
                          (fun j => strContains t.toLower j) := by
                        simpa [analyzeAudioSync, hs', recognizeGoogleWithTimeout] using hk
                      exact (List.mem_filter.mp this).1
                    · intro hne
                      have hne' : suspiciousKeywords.filter
                          (fun j => strContains t.toLower j) ≠ [] := by
                        simpa [analyzeAudioSync, hs', recognizeGoogleWithTimeout] using hne
                      have := filter_keywords_ne_nil_transcript _ hne'
                      simpa [analyzeAudioSync, hs', recognizeGoogleWithTimeout] using this
                    · intro _
                      simp [analyzeAudioSync, hs', recognizeGoogleWithTimeout]
                | raisesRequestErr m =>
                    simp [analyzeAudioSync, hs', recognizeGoogleWithTimeout]
                | timesOut => simp [analyzeAudioSync, hs', recognizeGoogleWithTimeout]
                | raisesUnknown => simp [analyzeAudioSync, hs', recognizeGoogleWithTimeout]
      · have hs' := decide_eq_false hs
        simp [analyzeAudioSync, hs']

theorem audio_signal_invariants_witness :
    (analyzeAudioSync false (.success 0 demoSignal 100 20) (.call .timesOut) 7).has_speech
      = true :=
  (audio_signal_invariants false (.success 0 demoSignal 100 20) (.call .timesOut) 7).2.2
    (by simp [analyzeAudioSync, decide_eq_true demo_hasSpeech])

/-! ## C9: local-only mode invariants -/

/-- C9: when cloud transcription is disabled, every result has
`voice_count ≤ 1`, an empty transcript and empty `suspicious_keywords`, so
the audio rule evaluation can emit neither `multiple_voices` nor
`suspicious_conversation`. -/
theorem local_mode_invariants (load : LoadResult) (cloud : CloudStage) (durationMs : ℤ) :
    (analyzeAudioSync false load cloud durationMs).voice_count ≤ 1 ∧
    (analyzeAudioSync false load cloud durationMs).transcript = "" ∧
    (analyzeAudioSync false load cloud durationMs).suspicious_keywords = [] ∧
    "multiple_voices" ∉
      (audioViolations (analyzeAudioSync false load cloud durationMs)).map Violation.vtype ∧
    "suspicious_conversation" ∉
      (audioViolations (analyzeAudioSync false load cloud durationMs)).map Violation.vtype := by
  have key : (analyzeAudioSync false load cloud durationMs).voice_count ≤ 1 ∧
      (analyzeAudioSync false load cloud durationMs).transcript = "" ∧
      (analyzeAudioSync false load cloud durationMs).suspicious_keywords = [] := by
    cases load with
    | failure msg => simp [analyzeAudioSync]
    | success avgRms combined sr ylen =>
        by_cases hs : 0 < (detectSpeech combined sr ylen (2/100)).length
        · simp [analyzeAudioSync, decide_eq_true hs]
        · simp [analyzeAudioSync, decide_eq_false hs]
  refine ⟨key.1, key.2.1, key.2.2, ?_, ?_⟩
  · intro hmem
    rcases (mem_audioViolations_vtype _ _).mp hmem with ⟨h, _⟩ | ⟨_, h⟩ | ⟨h, _⟩ | ⟨h, _⟩
    · exact absurd h (by decide)
    · have := key.1
      omega
    · exact absurd h (by decide)
    · exact absurd h (by decide)
  · intro hmem
    rcases (mem_audioViolations_vtype _ _).mp hmem with ⟨h, _⟩ | ⟨h, _⟩ | ⟨h, _⟩ | ⟨_, h⟩
    · exact absurd h (by decide)
    · exact absurd h (by decide)
    · exact absurd h (by decide)
    · exact h key.2.2

theorem local_mode_invariants_witness :
    (analyzeAudioSync false (.failure "boom") (.call .timesOut) 0).voice_count ≤ 1 :=
  (local_mode_invariants (.failure "boom") (.call .timesOut) 0).1

/-! ## Helper lemmas for the face rule engine -/

theorem mem_faceViolations_vtype (r : FaceSignals) (t : String) :
    t ∈ (faceViolations r).map Violation.vtype ↔
      (t = "multiple_faces" ∧ 1 < r.face_count) ∨
      (t = "no_face" ∧ r.face_count = 0) ∨
      (t = "looking_away" ∧ ∃ g, r.gaze_direction = some g ∧ g.looking_away = true) ∨
      (t = "eyes_closed" ∧ r.eyes_closed = true) ∨
      (t = "face_covered" ∧ 3/10 < r.face_coverage) := by
  unfold faceViolations
  rcases hg : r.gaze_direction with _ | g
  · by_cases h1 : 1 < r.face_count <;> by_cases h2 : r.face_count = 0 <;>
      by_cases h3 : r.eyes_closed <;> by_cases h4 : (3 : ℚ)/10 < r.face_coverage <;>
      simp [h1, h2, h3, h4, hg]
  · by_cases h1 : 1 < r.face_count <;> by_cases h2 : r.face_count = 0 <;>
      by_cases h3 : r.eyes_closed <;> by_cases h4 : (3 : ℚ)/10 < r.face_coverage <;>
      by_cases h5 : g.looking_away <;>
      simp [h1, h2, h3, h4, h5, hg]

/-- Full characterization of the face-channel violation list membership. -/
theorem mem_faceViolations_iff (r : FaceSignals) (v : Violation) :
    v ∈ faceViolations r ↔
      (v = ⟨"multiple_faces", r.confidence,
            "Detected " ++ toString r.face_count ++ " faces"⟩ ∧ 1 < r.face_count) ∨
      (v = ⟨"no_face", 9/10, "No face detected in frame"⟩ ∧ r.face_count = 0) ∨
      (∃ g, r.gaze_direction = some g ∧ g.looking_away = true ∧
         v = ⟨"looking_away", g.confidence, "User looking " ++ g.direction⟩) ∨
      (v = ⟨"eyes_closed", 8/10, "Eyes detected as closed"⟩ ∧ r.eyes_closed = true) ∨
      (v = ⟨"face_covered", 3/4,
            "Face covered (" ++ toString (r.face_coverage * 100) ++ "%)"⟩ ∧
         3/10 < r.face_coverage) := by
  unfold faceViolations
  rcases hg : r.gaze_direction with _ | g
  · by_cases h1 : 1 < r.face_count <;> by_cases h2 : r.face_count = 0 <;>
      by_cases h3 : r.eyes_closed <;> by_cases h4 : (3 : ℚ)/10 < r.face_coverage <;>
      simp [h1, h2, h3, h4, hg]
  · by_cases h1 : 1 < r.face_count <;> by_cases h2 : r.face_count = 0 <;>
      by_cases h3 : r.eyes_closed <;> by_cases h4 : (3 : ℚ)/10 < r.face_coverage <;>
      by_cases h5 : g.looking_away <;>
      simp [h1, h2, h3, h4, h5, hg]

/-- A concrete landmark set with every point at the origin. -/
def lmZero : FaceLandmarks :=
  ⟨⟨0, 0, 0⟩, ⟨0, 0, 0⟩, ⟨0, 0, 0⟩, ⟨0, 0, 0⟩, ⟨0, 0, 0⟩, ⟨0, 0, 0⟩,
   ⟨0, 0, 0⟩, ⟨0, 0, 0⟩, ⟨0, 0, 0⟩, ⟨0, 0, 0⟩, ⟨0, 0, 0⟩⟩

/-! ## C3: landmark-mode gaze analysis -/

/-- C3 counterexample: at a landmark set where the eye centre coincides with
the nose tip the analyzer reports direction `center`, not the
`left if eyes_center_x < nose_x else right` value the claim prescribes for
every landmark set. -/
theorem gaze_direction_formula_cex :
    ¬ ((analyzeGazeDirection lmZero).direction =
        (if (lmZero.leftInner.x + lmZero.leftOuter.x + lmZero.rightInner.x +
              lmZero.rightOuter.x) / 4 < lmZero.nose.x then "left" else "right")) := by
  norm_num [analyzeGazeDirection, lmZero]
  decide

/-- C3 (amended): for every landmark set,
`horizontal_offset = |eyes_center_x − nose_x|` with `eyes_center_x` the
average of the four eye-corner x-coordinates,
`looking_away = offset > 0.10`,
`direction = center` when not looking away and otherwise
`left if eyes_center_x < nose_x else right`, and
`confidence = min(0.9, 0.7 + 2·offset)`. -/
theorem gaze_landmark_formulas (lm : FaceLandmarks) :
    (analyzeGazeDirection lm).horizontal_offset =
      |(lm.leftInner.x + lm.leftOuter.x + lm.rightInner.x + lm.rightOuter.x) / 4
        - lm.nose.x| ∧
    (analyzeGazeDirection lm).looking_away =
      decide (1/10 < (analyzeGazeDirection lm).horizontal_offset) ∧
    (analyzeGazeDirection lm).direction =
      (if (analyzeGazeDirection lm).looking_away then
         (if (lm.leftInner.x + lm.leftOuter.x + lm.rightInner.x + lm.rightOuter.x) / 4
              < lm.nose.x then "left" else "right")
       else "center") ∧
    (analyzeGazeDirection lm).confidence =
      min (9/10) (7/10 + 2 * (analyzeGazeDirection lm).horizontal_offset) := by
  have havg : ((lm.leftInner.x + lm.leftOuter.x) / 2 +
        (lm.rightInner.x + lm.rightOuter.x) / 2) / 2
      = (lm.leftInner.x + lm.leftOuter.x + lm.rightInner.x + lm.rightOuter.x) / 4 := by
    ring
  simp only [analyzeGazeDirection]
  simp only [havg]
  refine ⟨?_, ?_, ?_, ?_⟩ <;> first
    | trivial
    | (congr 1; ring)

/-! ## C5: mutual exclusion of multiple_faces and no_face -/

/-- C5: for every `FaceSignals` record the face rules never emit
`multiple_faces` and `no_face` together; `multiple_faces` is emitted exactly
when `face_count > 1` and `no_face` exactly when `face_count = 0`. -/
theorem face_rule_exclusivity (r : FaceSignals) :
    ¬ ("multiple_faces" ∈ (faceViolations r).map Violation.vtype ∧
       "no_face" ∈ (faceViolations r).map Violation.vtype) ∧
    ("multiple_faces" ∈ (faceViolations r).map Violation.vtype ↔ 1 < r.face_count) ∧
    ("no_face" ∈ (faceViolations r).map Violation.vtype ↔ r.face_count = 0) := by
  have hmf : "multiple_faces" ∈ (faceViolations r).map Violation.vtype ↔
      1 < r.face_count := by
    rw [mem_faceViolations_vtype]
    constructor
    · rintro (⟨_, h⟩ | ⟨h, _⟩ | ⟨h, _⟩ | ⟨h, _⟩ | ⟨h, _⟩)
      · exact h
      all_goals exact absurd h (by decide)
    · exact fun h => Or.inl ⟨rfl, h⟩
  have hnf : "no_face" ∈ (faceViolations r).map Violation.vtype ↔
      r.face_count = 0 := by
    rw [mem_faceViolations_vtype]
    constructor
    · rintro (⟨h, _⟩ | ⟨_, h⟩ | ⟨h, _⟩ | ⟨h, _⟩ | ⟨h, _⟩)
      · exact absurd h (by decide)
      · exact h
      all_goals exact absurd h (by decide)
    · exact fun h => Or.inr (Or.inl ⟨rfl, h⟩)
  refine ⟨?_, hmf, hnf⟩
  rintro ⟨h1, h2⟩
  have := hmf.mp h1
  have := hnf.mp h2
  omega

theorem face_rule_exclusivity_witness :
    "no_face" ∈ (faceViolations {}).map Violation.vtype :=
  (face_rule_exclusivity {}).2.2.mpr rfl

/-! ## C6: zero detected faces -/

/-- The face rules on a record with zero faces and default derived fields
emit exactly the `no_face` violation. -/
theorem faceViolations_default_mode (mode : String) (err : Option String) :
    faceViolations { detector_mode := mode, error := err } =
      [⟨"no_face", 9/10, "No face detected in frame"⟩] := by
  norm_num [faceViolations]

/-- C6: every analyzed frame with zero detected faces (empty cascade result,
empty MediaPipe detection list, or a decode failure) yields a `FaceSignals`
record with `gaze_direction` absent, `eyes_closed` false and `face_coverage`
0, and the rule evaluation emits only the `no_face` violation. -/
theorem zero_face_defaults_and_rules (frameW frameH : ℕ) (eyeCascadeOk : Bool)
    (eyesDetected : ℕ) (rt : ℚ → ℚ) (mesh : Option FaceLandmarks) :
    (analyzeWithOpencv [] frameW frameH eyeCascadeOk eyesDetected =
        { detector_mode := "opencv" } ∧
     analyzeWithMediapipe rt [] mesh = { detector_mode := "mediapipe" } ∧
     decodeFailureSignals.face_count = 0 ∧
     decodeFailureSignals.gaze_direction = none ∧
     decodeFailureSignals.eyes_closed = false ∧
     decodeFailureSignals.face_coverage = 0) ∧
    (faceViolations (analyzeWithOpencv [] frameW frameH eyeCascadeOk eyesDetected) =
        [⟨"no_face", 9/10, "No face detected in frame"⟩] ∧
     faceViolations (analyzeWithMediapipe rt [] mesh) =
        [⟨"no_face", 9/10, "No face detected in frame"⟩] ∧
     faceViolations decodeFailureSignals =
        [⟨"no_face", 9/10, "No face detected in frame"⟩]) := by
  have hcv : analyzeWithOpencv [] frameW frameH eyeCascadeOk eyesDetected =
      { detector_mode := "opencv" } := rfl
  have hmp : analyzeWithMediapipe rt [] mesh = { detector_mode := "mediapipe" } := rfl
  have hdf : decodeFailureSignals =
      { detector_mode := "", error := some "Could not decode image" } := rfl
  refine ⟨⟨hcv, hmp, rfl, rfl, rfl, rfl⟩, ?_, ?_, ?_⟩
  · rw [hcv]
    exact faceViolations_default_mode "opencv" none
  · rw [hmp]
    exact faceViolations_default_mode "mediapipe" none
  · rw [hdf]
    exact faceViolations_default_mode "" (some "Could not decode image")

/-! ## C8: degenerate eye aspect ratio -/

/-- C8: `_calculate_ear` is total — coinciding eye corners give horizontal
distance 0 and EAR 0 instead of a division-by-zero fault, and with both eyes
degenerate the averaged EAR 0 is below the 0.25 threshold, so
`eyes_closed = true`.  The external `np.sqrt` is any routine `rt` with
`rt 0 = 0`. -/
theorem ear_degenerate (rt : ℚ → ℚ) (h0 : rt 0 = 0) (lm : FaceLandmarks)
    (hleft : lm.leftOuter = lm.leftInner) (hright : lm.rightInner = lm.rightOuter) :
    calculateEar rt lm.leftTop lm.leftBottom lm.leftOuter lm.leftInner = 0 ∧
    calculateEar rt lm.rightTop lm.rightBottom lm.rightInner lm.rightOuter = 0 ∧
    checkEyesClosed rt lm = true := by
  have hdist : ∀ p : Landmark, distSq p p = 0 := by
    intro p
    simp only [distSq]
    ring
  have hl : calculateEar rt lm.leftTop lm.leftBottom lm.leftOuter lm.leftInner = 0 := by
    rw [hleft]
    simp only [calculateEar, hdist, h0]
    simp
  have hr : calculateEar rt lm.rightTop lm.rightBottom lm.rightInner lm.rightOuter = 0 := by
    rw [hright]
    simp only [calculateEar, hdist, h0]
    simp
  refine ⟨hl, hr, ?_⟩
  simp only [checkEyesClosed, hl, hr]
  norm_num

theorem ear_degenerate_witness :
    calculateEar (fun q => q) lmZero.leftTop lmZero.leftBottom lmZero.leftOuter
        lmZero.leftInner = 0 ∧
    calculateEar (fun q => q) lmZero.rightTop lmZero.rightBottom lmZero.rightInner
        lmZero.rightOuter = 0 ∧
    checkEyesClosed (fun q => q) lmZero = true :=
  ear_degenerate (fun q => q) rfl lmZero rfl rfl

/-! ## C10: box-mode constant confidence -/

/-- Any `multiple_faces` violation carries the record's detection
confidence. -/
theorem faceViolations_multiple_faces_conf (r : FaceSignals) (v : Violation)
    (hv : v ∈ faceViolations r) (ht : v.vtype = "multiple_faces") :
    v.confidence = r.confidence := by
  rcases (mem_faceViolations_iff r v).mp hv with
    ⟨rfl, _⟩ | ⟨rfl, _⟩ | ⟨g, _, _, rfl⟩ | ⟨rfl, _⟩ | ⟨rfl, _⟩
  · rfl
  all_goals simp at ht

/-- C10: in box mode, whenever at least one face is detected the record's
detection confidence is the constant 0.7, so every `multiple_faces`
violation emitted in box mode has confidence 0.7. -/
theorem opencv_confidence_constant (f : CvFace) (rest : List CvFace)
    (frameW frameH : ℕ) (eyeCascadeOk : Bool) (eyesDetected : ℕ) :
    (analyzeWithOpencv (f :: rest) frameW frameH eyeCascadeOk eyesDetected).confidence
        = 7/10 ∧
    (∀ v ∈ faceViolations (analyzeWithOpencv (f :: rest) frameW frameH eyeCascadeOk
        eyesDetected), v.vtype = "multiple_faces" → v.confidence = 7/10) := by
  have hconf : (analyzeWithOpencv (f :: rest) frameW frameH eyeCascadeOk
      eyesDetected).confidence = 7/10 := by
    simp [analyzeWithOpencv, toDict]
  refine ⟨hconf, fun v hv ht => ?_⟩
  rw [faceViolations_multiple_faces_conf _ v hv ht, hconf]

theorem opencv_confidence_constant_witness :
    (analyzeWithOpencv [⟨0, 0, 2, 2⟩] 10 10 true 1).confidence = 7/10 :=
  (opencv_confidence_constant ⟨0, 0, 2, 2⟩ [] 10 10 true 1).1

end YoScore
